import Mathlib

/-!
# Shallow embedding of the `unimodel` serving core

This file embeds, in Lean 4, the parts of the `turtacn/unimodel` Rust
sources that the verified claims are about:

* `src/common/types.rs` — `InputData`, `OutputData`, `PredictionParameters`,
  `PerformanceMetrics`, `HealthStatus`, `BatchConfig`;
* `src/common/error.rs` — `UniModelError`, `error_code`, `status_code`;
* `src/application/services/prediction_service.rs` — input validation and the
  ledger-update behaviour of `predict`;
* `src/domain/service/batch_processor.rs` — the dispatch-tick partitioning
  (`process_batches`), batch splitting (`process_model_group`), batch
  execution and result fan-out (`execute_batch`, `simulate_batch_inference`);
* `src/domain/model/model_entity.rs` — `Model`, `ModelStatus`,
  `PerformanceStats` and their mutators;
* `src/domain/service/model_manager.rs` — registration with capacity check,
  asynchronous load completion, unregistration, performance updates and
  `health_check`, modelled as a transition system over the registry.

Conventions: Rust `String` payloads that are measured in bytes
(`InputData::Text`, `InputData::Binary`) are embedded as their byte
sequences (`List Nat`), so that Rust's `len()` (a byte count) is
`List.length`.  `Instant` / `DateTime<Utc>` timestamps are embedded as
natural numbers (milliseconds); `u64` counters are embedded as `Nat`
(the only operation performed on them is `+ 1`, far from overflow);
`f64` statistics that no claim reasons about are embedded as `Rat`.
-/

namespace Unimodel

/-! ## Identifier aliases (`src/common/types.rs`) -/

/-- Rust `type ModelId = String`. -/
abbrev ModelId := String

/-- Rust `type RequestId = String`. -/
abbrev RequestId := String

/-- Rust `type PluginId = String`. -/
abbrev PluginId := String

/-! ## JSON values (`serde_json::Value`), as far as the core inspects them -/

/-- A `serde_json::Value`.  The core only ever asks `is_null`, clones and
compares values, so a structural embedding suffices. -/
inductive Json where
  | null : Json
  | bool (b : Bool) : Json
  | num (n : Int) : Json
  | str (s : String) : Json
  | arr (elems : List Json) : Json
  | obj (fields : List (String × Json)) : Json

/-- `serde_json::Value::is_null`. -/
def Json.is_null : Json → Bool
  | .null => true
  | _ => false

/-! ## Error taxonomy (`src/common/error.rs`) -/

/-- `UniModelError`.  The `Io`, `Serialization` and `Http` variants wrap
foreign error types in Rust; only their messages matter here. -/
inductive UniModelError where
  | Config (msg : String)
  | Model (msg : String)
  | Plugin (msg : String)
  | BatchProcessing (msg : String)
  | Scheduling (msg : String)
  | Resource (msg : String)
  | Network (msg : String)
  | Authentication (msg : String)
  | Authorization (msg : String)
  | Validation (msg : String)
  | Io (msg : String)
  | Serialization (msg : String)
  | Http (msg : String)
  | Internal (msg : String)

/-- `UniModelError::model`. -/
def UniModelError.model (msg : String) : UniModelError := .Model msg

/-- `UniModelError::internal`. -/
def UniModelError.internal (msg : String) : UniModelError := .Internal msg

/-- `UniModelError::validation` (constructs the `Validation` variant, as used
by `PredictionService::validate_input_data`). -/
def UniModelError.validation (msg : String) : UniModelError := .Validation msg

/-- `UniModelError::error_code`. -/
def UniModelError.error_code : UniModelError → String
  | .Config _ => "CONFIG_ERROR"
  | .Model _ => "MODEL_ERROR"
  | .Plugin _ => "PLUGIN_ERROR"
  | .BatchProcessing _ => "BATCH_ERROR"
  | .Scheduling _ => "SCHEDULE_ERROR"
  | .Resource _ => "RESOURCE_ERROR"
  | .Network _ => "NETWORK_ERROR"
  | .Authentication _ => "AUTH_ERROR"
  | .Authorization _ => "AUTHZ_ERROR"
  | .Validation _ => "VALIDATION_ERROR"
  | .Io _ => "IO_ERROR"
  | .Serialization _ => "SERIALIZATION_ERROR"
  | .Http _ => "HTTP_ERROR"
  | .Internal _ => "INTERNAL_ERROR"

/-- `UniModelError::status_code`. -/
def UniModelError.status_code : UniModelError → Nat
  | .Config _ => 500
  | .Model _ => 404
  | .Plugin _ => 500
  | .BatchProcessing _ => 500
  | .Scheduling _ => 503
  | .Resource _ => 503
  | .Network _ => 502
  | .Authentication _ => 401
  | .Authorization _ => 403
  | .Validation _ => 400
  | .Io _ => 500
  | .Serialization _ => 400
  | .Http _ => 500
  | .Internal _ => 500

/-! ## Inference payloads (`src/common/types.rs`) -/

/-- `InputData`.  `Text` and `Binary` carry their byte sequences; a
`Multimodal` map is an association list (iteration order of the Rust
`HashMap` is unspecified, validation only traverses all entries). -/
inductive InputData where
  | Text (bytes : List Nat) : InputData
  | Binary (data : List Nat) : InputData
  | Json (json : Json) : InputData
  | Multimodal (map : List (String × InputData)) : InputData

/-- `OutputData`. -/
inductive OutputData where
  | Text (bytes : List Nat) : OutputData
  | Binary (data : List Nat) : OutputData
  | Json (json : Json) : OutputData
  | Multimodal (map : List (String × OutputData)) : OutputData

/-- `PredictionParameters`. -/
structure PredictionParameters where
  max_tokens : Option Nat
  temperature : Option Rat
  top_p : Option Rat
  top_k : Option Nat
  stream : Option Bool
  custom : List (String × Json)

/-- `PredictionParameters::default()`. -/
def PredictionParameters.default : PredictionParameters :=
  { max_tokens := none, temperature := none, top_p := none, top_k := none,
    stream := none, custom := [] }

/-- `PerformanceMetrics` (timestamps in milliseconds). -/
structure PerformanceMetrics where
  request_id : RequestId
  start_time : Int
  end_time : Int
  total_latency_ms : Nat
  inference_latency_ms : Nat
  queue_wait_ms : Nat
  preprocessing_ms : Nat
  postprocessing_ms : Nat
  tokens_generated : Option Nat
  tokens_input : Option Nat
  throughput_tokens_per_sec : Option Rat
  batch_size : Nat
  gpu_utilization : Option Rat
  memory_usage_mb : Option Nat

/-- `HealthStatus`. -/
inductive HealthStatus where
  | Healthy
  | Unhealthy
  | Unknown
deriving DecidableEq

/-- `BatchConfig`. -/
structure BatchConfig where
  max_batch_size : Nat
  max_wait_time_ms : Nat
  dynamic_padding : Bool
  timeout_ms : Nat

/-- `BatchConfig::default()`. -/
def BatchConfig.default : BatchConfig :=
  { max_batch_size := 32, max_wait_time_ms := 50, dynamic_padding := true,
    timeout_ms := 30000 }

/-! ## Input validation (`PredictionService::validate_input_data`,
`src/application/services/prediction_service.rs` lines 154–191) -/

mutual

/-- `PredictionService::validate_input_data`.  `text.len()` and `data.len()`
are byte counts, here the length of the embedded byte sequence. -/
def validate_input_data : InputData → Except UniModelError Unit
  | .Text text =>
    if text.isEmpty then
      .error (UniModelError.validation "Text input cannot be empty")
    else if text.length > 1000000 then
      .error (UniModelError.validation "Text input too large")
    else .ok ()
  | .Binary data =>
    if data.isEmpty then
      .error (UniModelError.validation "Binary input cannot be empty")
    else if data.length > 100000000 then
      .error (UniModelError.validation "Binary input too large")
    else .ok ()
  | .Json json =>
    if json.is_null then
      .error (UniModelError.validation "JSON input cannot be null")
    else .ok ()
  | .Multimodal map =>
    if map.isEmpty then
      .error (UniModelError.validation "Multimodal input cannot be empty")
    else validate_multimodal_entries map

/-- The `for (key, value) in map` loop inside `validate_input_data`'s
`Multimodal` arm. -/
def validate_multimodal_entries : List (String × InputData) → Except UniModelError Unit
  | [] => .ok ()
  | (key, value) :: rest =>
    if key.isEmpty then
      .error (UniModelError.validation "Multimodal key cannot be empty")
    else
      match validate_input_data value with
      | .error e => .error e
      | .ok () => validate_multimodal_entries rest

end

/-! ## Batch processor (`src/domain/service/batch_processor.rs`)

The dispatch loop's per-tick work is pure once the clock is passed in
explicitly: `Instant` values are milliseconds (`Nat`), and delivering to a
`oneshot` waiter is modelled by pairing the request id with the delivered
`Result`. -/

/-- `BatchRequest` (the `response_sender` half is modelled by keying
deliveries on `request_id`). -/
structure BatchRequest where
  request_id : RequestId
  model_id : ModelId
  input : InputData
  parameters : PredictionParameters
  submitted_at : Nat

/-- `ResponseMetadata`. -/
structure ResponseMetadata where
  model_version : String
  backend : String
  custom_metadata : List (String × Json)

/-- `PredictionResponse`. -/
structure PredictionResponse where
  request_id : RequestId
  model_id : ModelId
  output : OutputData
  metadata : ResponseMetadata
  metrics : PerformanceMetrics
  timestamp : Int

/-- The expiry test in `process_batches` (line 167):
`now.duration_since(request.submitted_at) > max_wait_time` — note the
strict inequality. -/
def requestExpired (now max_wait_time : Nat) (request : BatchRequest) : Bool :=
  now - request.submitted_at > max_wait_time

/-- `BatchProcessor::process_batches` (lines 151–190), minus the spawning of
`process_model_group`: the pending buffer is drained completely; each request
older than `max_wait_time` goes to the expired set, every other request is
grouped by model id (FIFO order within a group).  Returns
(expired set, per-model groups, requests left in the pending buffer).  The
Rust `HashMap` iterates groups in unspecified order; the embedding lists
them by first occurrence of the model id, which fixes one of the permitted
orders and keeps each group's contents exact. -/
def process_batches (now max_wait_time : Nat) (pending : List BatchRequest) :
    List BatchRequest × List (ModelId × List BatchRequest) × List BatchRequest :=
  let expired := pending.filter (requestExpired now max_wait_time)
  let kept := pending.filter (fun r => !requestExpired now max_wait_time r)
  let keys := (kept.map (·.model_id)).dedup
  (expired, keys.map (fun k => (k, kept.filter (·.model_id == k))), [])

/-- The `Err(UniModelError::internal("Request expired"))` sent to each waiter
in the expired set (`process_batches` lines 177–181). -/
def expired_outcomes (expired : List BatchRequest) :
    List (RequestId × Except UniModelError PredictionResponse) :=
  expired.map (fun r => (r.request_id, .error (UniModelError.internal "Request expired")))

/-- The chunking loop of `BatchProcessor::process_model_group`
(lines 200–216): repeatedly drain `min (len, max_batch_size)` requests from
the front; each chunk becomes one executed batch.  (With
`max_batch_size = 0` the Rust loop never terminates; configuration
validation rejects that value, and the embedding returns no batches.) -/
def process_model_group (max_batch_size : Nat) (requests : List BatchRequest) :
    List (List BatchRequest) :=
  if h0 : requests.isEmpty then []
  else if h : max_batch_size = 0 then []
  else
    requests.take max_batch_size ::
      process_model_group max_batch_size (requests.drop max_batch_size)
termination_by requests.length
decreasing_by
  rw [List.length_drop]
  have hlen : 0 < requests.length := by
    cases requests with
    | nil => simp at h0
    | cons a t => simp
  omega

mutual

/-- Structural identity on payloads: `simulate_batch_inference` answers a
`Binary`/`Json`/`Multimodal` input with the same data cloned into
`OutputData`. -/
def inputToOutput : InputData → OutputData
  | .Text t => .Text t
  | .Binary d => .Binary d
  | .Json j => .Json j
  | .Multimodal m => .Multimodal (inputToOutputMap m)

/-- `inputToOutput` over the entries of a multimodal map. -/
def inputToOutputMap : List (String × InputData) → List (String × OutputData)
  | [] => []
  | (k, v) :: rest => (k, inputToOutput v) :: inputToOutputMap rest

end

/-- The UTF-8 bytes of the Rust string `"Processed: "`. -/
def processedPrefix : List Nat := [80, 114, 111, 99, 101, 115, 115, 101, 100, 58, 32]

/-- The UTF-8 bytes of the Rust string `"Error"`. -/
def errorTextBytes : List Nat := [69, 114, 114, 111, 114]

/-- The match arm applied to each input inside the loop of
`simulate_batch_inference` (lines 287–294): a `Text` input `s` answers
`Text("Processed: " + s)`, the other variants echo their payload. -/
def simulated_output : InputData → OutputData
  | .Text text => .Text (processedPrefix ++ text)
  | .Binary data => .Binary data
  | .Json json => .Json json
  | .Multimodal map => .Multimodal (inputToOutputMap map)

/-- `BatchProcessor::simulate_batch_inference` (lines 284–298): one output
per input, in order. -/
def simulate_batch_inference (inputs : List InputData) :
    Except UniModelError (List OutputData) :=
  .ok (inputs.map simulated_output)

/-- The `PerformanceMetrics` record built inside `execute_batch`
(lines 256–272).  `start_exec` and `end_exec` are the two `Instant::now()`
readings around the inference call, `now` the wall clock at response
construction (so `request.submitted_at.elapsed() = now - submitted_at`), and
`batch_len` the number of inputs in the batch. -/
def execute_batch_metrics (request : BatchRequest)
    (start_exec end_exec now : Nat) (batch_len : Nat) : PerformanceMetrics :=
  let total_latency := end_exec - start_exec
  { request_id := request.request_id
    start_time := (now : Int) - (total_latency : Int)
    end_time := (now : Int)
    total_latency_ms := total_latency
    inference_latency_ms := total_latency
    queue_wait_ms := now - request.submitted_at
    preprocessing_ms := 5
    postprocessing_ms := 5
    tokens_generated := none
    tokens_input := none
    throughput_tokens_per_sec := none
    batch_size := batch_len
    gpu_utilization := some (3 / 4)
    memory_usage_mb := some 1024 }

/-- The `PredictionResponse` built for the `i`-th request inside the
distribution loop of `execute_batch` (lines 243–274): the output is
`batch_results[i]`, falling back to `Text("Error")` when the index is out of
range (which `simulate_batch_inference` never produces). -/
def batch_response (model_id : ModelId) (batch_results : List OutputData)
    (batch_len : Nat) (start_exec end_exec now : Nat) (i : Nat)
    (request : BatchRequest) : PredictionResponse :=
  { request_id := request.request_id
    model_id := model_id
    output := (batch_results[i]?).getD (.Text errorTextBytes)
    metadata :=
      { model_version := "1.0.0"
        backend := "simulated"
        custom_metadata := [] }
    metrics := execute_batch_metrics request start_exec end_exec now batch_len
    timestamp := (now : Int) }

/-- `BatchProcessor::execute_batch` (lines 222–281) as its delivery effect:
for the `i`-th request of the batch group, send `Ok` of the response built
from `batch_results[i]`. -/
def execute_batch (model_id : ModelId) (requests : List BatchRequest)
    (start_exec end_exec now : Nat) :
    Except UniModelError
      (List (RequestId × Except UniModelError PredictionResponse)) :=
  let batch_inputs := requests.map (·.input)
  match simulate_batch_inference batch_inputs with
  | .error e => .error e
  | .ok batch_results =>
    .ok <| (requests.enum.map fun (i, request) =>
      (request.request_id, .ok (batch_response model_id batch_results
        batch_inputs.length start_exec end_exec now i request)))

/-! ## Ledger update on the `predict` path
(`PredictionService::predict`, `src/application/services/prediction_service.rs`
lines 31–63)

`predict` calls `update_model_performance(model_id, latency, true)` only
after the awaited waiter yields `Ok(response)`; any error from
`submit_request` (an expired or failed request, a timeout, a closed channel)
propagates with `?` before the ledger is touched. -/

/-- Ledger `total_requests` delta contributed by one terminal event observed
through `predict`. -/
def predict_ledger_delta (outcome : Except UniModelError PredictionResponse) : Nat :=
  match outcome with
  | .ok _ => 1
  | .error _ => 0

/-- Ledger `total_requests` growth over a sequence of terminal events each
observed through `predict`. -/
def ledger_total_after (outcomes : List (Except UniModelError PredictionResponse)) : Nat :=
  outcomes.foldl (fun acc outcome => acc + predict_ledger_delta outcome) 0

/-! ## Model entity (`src/domain/model/model_entity.rs`) -/

/-- `ModelStatus`. -/
inductive ModelStatus where
  | Initializing
  | Loading
  | Ready
  | Running
  | Error (msg : String)
  | Unloaded
deriving DecidableEq

/-- `ModelType`. -/
inductive ModelType where
  | LLM
  | CV
  | Audio
  | Multimodal
  | ML
  | Custom (name : String)
deriving DecidableEq

/-- `DeviceType`. -/
inductive DeviceType where
  | CPU
  | CUDA
  | Metal
  | OpenCL
  | NPU
deriving DecidableEq

/-- `DeviceConfig`. -/
structure DeviceConfig where
  device_type : DeviceType
  device_ids : List Nat
  memory_limit_mb : Option Nat
  mixed_precision : Bool

/-- `QuantizationType`. -/
inductive QuantizationType where
  | INT8
  | INT4
  | FP16
  | Dynamic
deriving DecidableEq

/-- `MemoryOptimization`. -/
inductive MemoryOptimization where
  | None
  | Low
  | Medium
  | High
deriving DecidableEq

/-- `OptimizationConfig`. -/
structure OptimizationConfig where
  kv_cache : Bool
  quantization : Option QuantizationType
  graph_optimization : Bool
  inference_parallelism : Nat
  memory_optimization : MemoryOptimization

/-- `ModelConfig`. -/
structure ModelConfig where
  model_path : String
  config_path : Option String
  tokenizer_path : Option String
  backend : String
  device : DeviceConfig
  optimization : OptimizationConfig
  batch_config : BatchConfig
  custom_params : List (String × Json)

/-- `ModelMetadata` (timestamps in milliseconds). -/
structure ModelMetadata where
  author : Option String
  description : Option String
  license : Option String
  tags : List String
  version : String
  created_at : Nat
  updated_at : Nat
  custom_metadata : List (String × Json)

/-- `PerformanceStats` (`f64` fields embedded as `Rat`). -/
structure PerformanceStats where
  total_requests : Nat
  successful_requests : Nat
  failed_requests : Nat
  avg_latency_ms : Rat
  p95_latency_ms : Rat
  p99_latency_ms : Rat
  avg_throughput_rps : Rat
  last_updated : Nat

/-- `ModelInfo` (`ResourceUsage` never carries data relevant to a claim and
is kept as an optional placeholder). -/
structure ModelInfo where
  id : ModelId
  name : String
  model_type : ModelType
  status : ModelStatus
  config : ModelConfig
  metadata : ModelMetadata
  resource_usage : Option Unit
  performance_stats : PerformanceStats
  health_status : HealthStatus

/-- `ModelInstance`. -/
structure ModelInstance where
  id : String
  plugin_id : PluginId
  handle : Nat
  supports_batching : Bool
  max_batch_size : Nat

/-- `Model`.  The source field `instance` is a Lean keyword and is embedded
as `instance_handle`. -/
structure Model where
  info : ModelInfo
  instance_handle : Option ModelInstance
  is_warm : Bool
  last_accessed : Nat
  loaded_at : Option Nat

/-- `Model::new` (`Utc::now()` passed in as `now`). -/
def Model.new (now : Nat) (id : ModelId) (name : String) (model_type : ModelType)
    (config : ModelConfig) : Model :=
  { info :=
      { id := id
        name := name
        model_type := model_type
        status := .Initializing
        config := config
        metadata :=
          { author := none, description := none, license := none, tags := []
            version := "1.0.0", created_at := now, updated_at := now
            custom_metadata := [] }
        resource_usage := none
        performance_stats :=
          { total_requests := 0, successful_requests := 0, failed_requests := 0
            avg_latency_ms := 0, p95_latency_ms := 0, p99_latency_ms := 0
            avg_throughput_rps := 0, last_updated := now }
        health_status := .Unknown }
    instance_handle := none
    is_warm := false
    last_accessed := now
    loaded_at := none }

/-- `Model::update_status` (`Utc::now()` passed in as `now`). -/
def Model.update_status (m : Model) (now : Nat) (status : ModelStatus) : Model :=
  let m := { m with
    info := { m.info with
      status := status
      metadata := { m.info.metadata with updated_at := now } } }
  match m.info.status with
  | .Ready | .Running => { m with loaded_at := some now }
  | _ => m

/-- `Model::touch`. -/
def Model.touch (m : Model) (now : Nat) : Model :=
  { m with last_accessed := now }

/-- `Model::is_loaded`. -/
def Model.is_loaded (m : Model) : Bool :=
  match m.info.status with
  | .Ready | .Running => true
  | _ => false

/-- `Model::is_healthy`. -/
def Model.is_healthy (m : Model) : Bool :=
  m.info.health_status == .Healthy

/-- `Model::update_performance_stats` (α = 0.1). -/
def Model.update_performance_stats (m : Model) (now : Nat) (latency_ms : Nat)
    (success : Bool) : Model :=
  let stats := m.info.performance_stats
  let stats := { stats with total_requests := stats.total_requests + 1 }
  let stats :=
    if success then
      { stats with successful_requests := stats.successful_requests + 1 }
    else
      { stats with failed_requests := stats.failed_requests + 1 }
  let alpha : Rat := 1 / 10
  let stats := { stats with
    avg_latency_ms := stats.avg_latency_ms * (1 - alpha) + (latency_ms : Rat) * alpha
    last_updated := now }
  { m with info := { m.info with performance_stats := stats } }

/-! ## Model manager (`src/domain/service/model_manager.rs`)

The registry `HashMap<ModelId, Model>` is embedded as an association list
with unique keys; `insert` replaces an existing binding or appends a fresh
one, `get_mut` is a keyed in-place update. -/

/-- The key set of the registry. -/
def modelKeys (models : List (ModelId × Model)) : List ModelId :=
  models.map (·.1)

/-- `HashMap::insert`. -/
def insertModel (models : List (ModelId × Model)) (id : ModelId) (m : Model) :
    List (ModelId × Model) :=
  if models.any (·.1 == id) then
    models.map (fun p => if p.1 == id then (p.1, m) else p)
  else
    models ++ [(id, m)]

/-- `HashMap::get_mut` followed by an in-place mutation `f` (no effect when
the id is absent, matching the `if let Some(model)` pattern). -/
def updateModel (models : List (ModelId × Model)) (id : ModelId) (f : Model → Model) :
    List (ModelId × Model) :=
  models.map (fun p => if p.1 == id then (p.1, f p.2) else p)

/-- `HashMap::remove`. -/
def removeModel (models : List (ModelId × Model)) (id : ModelId) :
    List (ModelId × Model) :=
  models.filter (fun p => !(p.1 == id))

/-- `ModelManager::register_model` (lines 42–82): build the model, fail with
a `Model`-kind error when `models.len() >= max_models` (leaving the registry
untouched), otherwise mark it `Loading` and insert it.  The spawned
asynchronous load is modelled by the `loadSuccess` / `loadFail` events of
`ManagerStep` below.  `now` stands for `Utc::now()`, `id` for the fresh
UUID from `new_model_id()`. -/
def register_model (max_models : Nat) (models : List (ModelId × Model))
    (now : Nat) (id : ModelId) (name : String) (model_type : ModelType)
    (config : ModelConfig) :
    Except UniModelError ModelId × List (ModelId × Model) :=
  let model := Model.new now id name model_type config
  if models.length ≥ max_models then
    (.error (UniModelError.model "Maximum number of models reached"), models)
  else
    let model := model.update_status now .Loading
    (.ok id, insertModel models id model)

/-- The per-entry mutation of the success arm of
`ModelManager::load_model_async` (lines 103–106): set the instance handle,
transition to `Ready`, mark health `Healthy`. -/
def apply_load_success (now : Nat) (inst : ModelInstance) (m : Model) : Model :=
  let m := { m with instance_handle := some inst }
  let m := m.update_status now .Ready
  { m with info := { m.info with health_status := .Healthy } }

/-- The per-entry mutation of the failure arm of
`ModelManager::load_model_async` (lines 112–116): transition to
`Error(message)`, mark health `Unhealthy`; the handle is left as it was
(still `None` for a model that was `Loading`). -/
def apply_load_failure (now : Nat) (emsg : String) (m : Model) : Model :=
  let m := m.update_status now (.Error emsg)
  { m with info := { m.info with health_status := .Unhealthy } }

/-- The success arm of `ModelManager::load_model_async` over the registry. -/
def load_model_success (models : List (ModelId × Model)) (now : Nat)
    (model_id : ModelId) (inst : ModelInstance) : List (ModelId × Model) :=
  updateModel models model_id (apply_load_success now inst)

/-- The failure arm of `ModelManager::load_model_async` over the registry. -/
def load_model_failure (models : List (ModelId × Model)) (now : Nat)
    (model_id : ModelId) (emsg : String) : List (ModelId × Model) :=
  updateModel models model_id (apply_load_failure now emsg)

/-- `ModelManager::unregister_model` (lines 126–143): remove the entry (the
removed model is marked `Unloaded` outside the registry) or fail with
`Model("Model not found")`. -/
def unregister_model (models : List (ModelId × Model)) (model_id : ModelId) :
    Except UniModelError Unit × List (ModelId × Model) :=
  if models.any (·.1 == model_id) then
    (.ok (), removeModel models model_id)
  else
    (.error (UniModelError.model "Model not found"), models)

/-- `ModelManager::update_model_performance` (lines 180–194). -/
def update_model_performance (models : List (ModelId × Model)) (now : Nat)
    (model_id : ModelId) (latency_ms : Nat) (success : Bool) :
    Except UniModelError Unit × List (ModelId × Model) :=
  if models.any (·.1 == model_id) then
    (.ok (), updateModel models model_id
      (fun m => m.update_performance_stats now latency_ms success))
  else
    (.error (UniModelError.model "Model not found"), models)

/-- `ModelManager::get_model_for_inference` (lines 160–177): availability
checks, then `touch`. -/
def get_model_for_inference (models : List (ModelId × Model)) (now : Nat)
    (model_id : ModelId) :
    Except UniModelError Model × List (ModelId × Model) :=
  match models.find? (·.1 == model_id) with
  | none => (.error (UniModelError.model "Model not found"), models)
  | some p =>
    if !p.2.is_loaded then
      (.error (UniModelError.model "Model not loaded"), models)
    else if !p.2.is_healthy then
      (.error (UniModelError.model "Model is unhealthy"), models)
    else
      (.ok (p.2.touch now), updateModel models model_id (fun m => m.touch now))

/-- `ModelManager::health_check` (lines 197–215). -/
def health_check (models : List (ModelId × Model)) : HealthStatus :=
  if models.isEmpty then
    .Unknown
  else
    let healthy_count := (models.filter (fun p => p.2.is_healthy)).length
    if healthy_count == models.length then .Healthy
    else if healthy_count > 0 then .Healthy
    else .Unhealthy

/-! ### The registry as a transition system

Registry contents change only through the `ModelManager` operations above.
A system state also records, per model id, whether the asynchronous load
task spawned by `register_model` is still outstanding: `register_model`
spawns exactly one load per fresh id, and exactly one of the two completion
arms of `load_model_async` eventually consumes it. -/

/-- A registry together with its outstanding asynchronous load tasks and
configured capacity. -/
structure ManagerState where
  models : List (ModelId × Model)
  pendingLoads : List ModelId
  max_models : Nat

/-- The events of `ModelManager`, with the guards the source establishes:
a registration uses a fresh UUID (never a live key, never an outstanding
load), and a load completion consumes an outstanding load task. -/
inductive ManagerStep : ManagerState → ManagerState → Prop where
  | register (s : ManagerState) (now : Nat) (id : ModelId) (name : String)
      (model_type : ModelType) (config : ModelConfig)
      (hfresh : id ∉ modelKeys s.models) (hpend : id ∉ s.pendingLoads)
      (hcap : s.models.length < s.max_models) :
      ManagerStep s
        { s with
          models := (register_model s.max_models s.models now id name model_type config).2
          pendingLoads := id :: s.pendingLoads }
  | loadSuccess (s : ManagerState) (now : Nat) (id : ModelId)
      (inst : ModelInstance) (hpend : id ∈ s.pendingLoads) :
      ManagerStep s
        { s with
          models := load_model_success s.models now id inst
          pendingLoads := s.pendingLoads.erase id }
  | loadFail (s : ManagerState) (now : Nat) (id : ModelId) (emsg : String)
      (hpend : id ∈ s.pendingLoads) :
      ManagerStep s
        { s with
          models := load_model_failure s.models now id emsg
          pendingLoads := s.pendingLoads.erase id }
  | unregister (s : ManagerState) (id : ModelId) :
      ManagerStep s { s with models := (unregister_model s.models id).2 }
  | updatePerf (s : ManagerState) (now : Nat) (id : ModelId) (latency_ms : Nat)
      (success : Bool) :
      ManagerStep s
        { s with models := (update_model_performance s.models now id latency_ms success).2 }
  | touchForInference (s : ManagerState) (now : Nat) (id : ModelId) :
      ManagerStep s { s with models := (get_model_for_inference s.models now id).2 }

/-- The empty registry a fresh `ModelManager::new` starts from. -/
def initState (max_models : Nat) : ManagerState :=
  { models := [], pendingLoads := [], max_models := max_models }

/-- States reachable from a fresh manager by `ModelManager` operations. -/
def ReachableState (max_models : Nat) (s : ManagerState) : Prop :=
  Relation.ReflTransGen ManagerStep (initState max_models) s

/-! ## Theorems -/

/-- Unfolding of `validate_input_data` on a `Text` input. -/
lemma validate_text_eq (text : List Nat) :
    validate_input_data (.Text text) =
      (if text.isEmpty then
        .error (UniModelError.validation "Text input cannot be empty")
      else if text.length > 1000000 then
        .error (UniModelError.validation "Text input too large")
      else .ok ()) := by
  simp [validate_input_data]

/-- C7: input validation of `Text` accepts exactly the non-empty byte strings
of at most 1,000,000 bytes; the empty text and a text of 1,000,001 bytes are
rejected with a `Validation` error, a text of exactly 1,000,000 bytes is
accepted. -/
theorem text_validation_boundary :
    (∀ text : List Nat,
      validate_input_data (.Text text) = .ok () ↔
        text ≠ [] ∧ text.length ≤ 1000000) ∧
    validate_input_data (.Text []) =
      .error (UniModelError.validation "Text input cannot be empty") ∧
    validate_input_data (.Text (List.replicate 1000000 7)) = .ok () ∧
    validate_input_data (.Text (List.replicate 1000001 7)) =
      .error (UniModelError.validation "Text input too large") := by
  have hiff : ∀ text : List Nat,
      validate_input_data (.Text text) = .ok () ↔
        text ≠ [] ∧ text.length ≤ 1000000 := by
    intro text
    rw [validate_text_eq]
    split_ifs with h1 h2
    · rw [List.isEmpty_iff] at h1
      subst h1
      simp
    · rw [List.isEmpty_iff] at h1
      have hgt : ¬ text.length ≤ 1000000 := by omega
      simp [hgt]
    · rw [List.isEmpty_iff] at h1
      have hle : text.length ≤ 1000000 := by omega
      simp [h1, hle]
  refine ⟨hiff, by rw [validate_text_eq]; rfl, ?_, ?_⟩
  · refine (hiff _).mpr ⟨?_, ?_⟩
    · have : (List.replicate 1000000 7).length = 1000000 := List.length_replicate ..
      intro hc
      rw [hc] at this
      simp at this
    · rw [List.length_replicate]
  · have hne : (List.replicate 1000001 7) ≠ ([] : List Nat) := by
      have : (List.replicate 1000001 7).length = 1000001 := List.length_replicate ..
      intro hc
      rw [hc] at this
      simp at this
    rw [validate_text_eq,
      if_neg (by rw [List.isEmpty_iff]; exact hne),
      if_pos (by rw [List.length_replicate]; omega)]

/-- C9: the health check is `Unknown` exactly on an empty registry, `Healthy`
exactly when some model is healthy, and `Unhealthy` otherwise. -/
theorem health_check_trichotomy (models : List (ModelId × Model)) :
    (health_check models = .Unknown ↔ models = []) ∧
    (health_check models = .Healthy ↔
      models ≠ [] ∧ ∃ p ∈ models, p.2.is_healthy = true) ∧
    (health_check models = .Unhealthy ↔
      models ≠ [] ∧ ∀ p ∈ models, p.2.is_healthy = false) := by
  have hposex : ∀ l : List (ModelId × Model),
      0 < (l.filter (fun p => p.2.is_healthy)).length →
        ∃ p ∈ l, p.2.is_healthy = true := by
    intro l hpos
    rcases hfl : l.filter (fun p => p.2.is_healthy) with _ | ⟨p, ps⟩
    · rw [hfl] at hpos; simp at hpos
    · have hp : p ∈ l.filter (fun p => p.2.is_healthy) := by
        rw [hfl]; exact List.mem_cons_self ..
      have := List.mem_filter.mp hp
      exact ⟨p, this.1, this.2⟩
  have hexpos : ∀ l : List (ModelId × Model),
      (∃ p ∈ l, p.2.is_healthy = true) →
        0 < (l.filter (fun p => p.2.is_healthy)).length := by
    rintro l ⟨p, hp, hh⟩
    have hmem : p ∈ l.filter (fun p => p.2.is_healthy) :=
      List.mem_filter.mpr ⟨hp, hh⟩
    exact List.length_pos.mpr (fun hc => by rw [hc] at hmem; simp at hmem)
  rcases models with _ | ⟨q, qs⟩
  · refine ⟨by simp [health_check], ?_, ?_⟩ <;> simp [health_check]
  · have hne : q :: qs ≠ ([] : List (ModelId × Model)) := by simp
    have hexpand : health_check (q :: qs) =
        (if ((q :: qs).filter (fun p => p.2.is_healthy)).length == (q :: qs).length
          then HealthStatus.Healthy
          else if ((q :: qs).filter (fun p => p.2.is_healthy)).length > 0
            then HealthStatus.Healthy
            else HealthStatus.Unhealthy) := rfl
    by_cases hpos : 0 < ((q :: qs).filter (fun p => p.2.is_healthy)).length
    · have hex := hposex _ hpos
      have hhc : health_check (q :: qs) = .Healthy := by
        rw [hexpand]
        by_cases h1 : (((q :: qs).filter (fun p => p.2.is_healthy)).length ==
            (q :: qs).length) = true
        · rw [if_pos h1]
        · rw [if_neg h1, if_pos hpos]
      refine ⟨?_, ?_, ?_⟩
      · constructor
        · intro hc; rw [hhc] at hc; cases hc
        · intro hc; exact absurd hc hne
      · exact ⟨fun _ => ⟨hne, hex⟩, fun _ => hhc⟩
      · constructor
        · intro hc; rw [hhc] at hc; cases hc
        · rintro ⟨-, hall⟩
          rcases hex with ⟨p, hp, hh⟩
          rw [hall p hp] at hh
          cases hh
    · have hhc : health_check (q :: qs) = .Unhealthy := by
        rw [hexpand]
        have h1 : ¬((((q :: qs).filter (fun p => p.2.is_healthy)).length ==
            (q :: qs).length) = true) := by
          intro hb
          rw [beq_iff_eq] at hb
          rw [hb] at hpos
          exact hpos (by simp)
        rw [if_neg h1, if_neg hpos]
      have hnone : ∀ p ∈ q :: qs, p.2.is_healthy = false := by
        intro p hp
        rcases hb : p.2.is_healthy with _ | _
        · rfl
        · exact absurd (hexpos _ ⟨p, hp, hb⟩) hpos
      refine ⟨?_, ?_, ?_⟩
      · constructor
        · intro hc; rw [hhc] at hc; cases hc
        · intro hc; exact absurd hc hne
      · constructor
        · intro hc; rw [hhc] at hc; cases hc
        · rintro ⟨-, p, hp, hh⟩
          rw [hnone p hp] at hh
          cases hh
      · exact ⟨fun _ => ⟨hne, hnone⟩, fun _ => hhc⟩

/-- A concrete request (`Text("hi")`, submitted at time 0) used to
instantiate theorems on concrete inputs. -/
def sampleTextRequest : BatchRequest :=
  { request_id := "req-0"
    model_id := "m1"
    input := .Text [104, 105]
    parameters := PredictionParameters.default
    submitted_at := 0 }

/-- `simulate_batch_inference` answers every batch with `Ok` of the
pointwise transform of its inputs. -/
lemma simulate_batch_inference_eq (inputs : List InputData) :
    simulate_batch_inference inputs = .ok (inputs.map simulated_output) := rfl

/-- C2: the simulated inference step produces exactly as many outputs as
inputs, and `execute_batch` delivers the `i`-th output to the waiter of the
`i`-th request of the group; a `Text` input `s` receives
`Text("Processed: " + s)`. -/
theorem batch_positional_delivery :
    (∀ (inputs : List InputData) (outs : List OutputData),
      simulate_batch_inference inputs = .ok outs → outs.length = inputs.length) ∧
    (∀ (model_id : ModelId) (requests : List BatchRequest)
        (start_exec end_exec now i : Nat) (req : BatchRequest)
        (outs : List OutputData),
      simulate_batch_inference (requests.map (·.input)) = .ok outs →
      requests[i]? = some req →
      ∃ devs resp,
        execute_batch model_id requests start_exec end_exec now = .ok devs ∧
        devs[i]? = some (req.request_id, .ok resp) ∧
        outs[i]? = some resp.output ∧
        ∀ s, req.input = .Text s → resp.output = .Text (processedPrefix ++ s)) := by
  constructor
  · intro inputs outs h
    rw [simulate_batch_inference_eq] at h
    injection h with h
    rw [← h, List.length_map]
  · intro model_id requests start_exec end_exec now i req outs hsim hreq
    rw [simulate_batch_inference_eq] at hsim
    injection hsim with hsim
    refine ⟨_, batch_response model_id ((requests.map (·.input)).map simulated_output)
      (requests.map (·.input)).length start_exec end_exec now i req, rfl, ?_, ?_, ?_⟩
    · simp only [List.getElem?_map, List.getElem?_enum, hreq, Option.map_some']
    · rw [← hsim]
      simp only [batch_response, List.getElem?_map, hreq, Option.map_some',
        Option.getD_some]
    · intro s hs
      simp only [batch_response, List.getElem?_map, hreq, Option.map_some',
        Option.getD_some, hs, simulated_output]

/-- Witness for C2 at a concrete batch of one `Text("hi")` request. -/
theorem batch_positional_delivery_witness :
    ∃ devs resp,
      execute_batch "m1" [sampleTextRequest] 0 50 50 = .ok devs ∧
      devs[0]? = some (sampleTextRequest.request_id, .ok resp) ∧
      [OutputData.Text (processedPrefix ++ [104, 105])][0]? = some resp.output ∧
      ∀ s, sampleTextRequest.input = .Text s →
        resp.output = .Text (processedPrefix ++ s) :=
  batch_positional_delivery.2 "m1" [sampleTextRequest] 0 50 50 0
    sampleTextRequest [OutputData.Text (processedPrefix ++ [104, 105])] rfl rfl

/-- Unfolding of one dispatch tick. -/
lemma process_batches_eq (now max_wait_ms : Nat) (pending : List BatchRequest) :
    process_batches now max_wait_ms pending =
      (pending.filter (requestExpired now max_wait_ms),
       ((pending.filter (fun r => !requestExpired now max_wait_ms r)).map
          (·.model_id)).dedup.map
         (fun k => (k, (pending.filter
            (fun r => !requestExpired now max_wait_ms r)).filter
              (·.model_id == k))),
       []) := rfl

/-- The flush condition of spec §4.6 step 4, stated from the
specification's words for comparison with the code: a group may be
dispatched now only if its size reached `max_batch_size`, or its oldest
request's age reached `max_wait_ms`, or a shutdown drain is in progress. -/
def specFlushCond (now max_wait_ms max_batch_size : Nat) (drain : Bool)
    (group : List BatchRequest) : Prop :=
  max_batch_size ≤ group.length ∨
  (∃ r ∈ group, max_wait_ms ≤ now - r.submitted_at) ∨
  drain = true

/-- C1 counterexample: with `max_batch_size = 32`, `max_wait_ms = 50`, no
shutdown drain, and a single pending request of age 0, the tick dispatches
the request's group even though it satisfies none of the spec's flush
conditions, and leaves the pending buffer empty rather than retaining the
request. -/
theorem dispatch_gating_refuted :
    ¬ ((∀ g ∈ (process_batches 0 50 [sampleTextRequest]).2.1,
          specFlushCond 0 50 32 false g.2) ∧
       sampleTextRequest ∈ (process_batches 0 50 [sampleTextRequest]).2.2) := by
  rintro ⟨hall, -⟩
  have hmem : ("m1", [sampleTextRequest]) ∈
      (process_batches 0 50 [sampleTextRequest]).2.1 := by
    rw [process_batches_eq]
    exact List.mem_singleton.mpr rfl
  rcases hall _ hmem with h | ⟨r, hr, hle⟩ | h
  · simp at h
  · rw [List.mem_singleton] at hr
    subst hr
    simp [sampleTextRequest] at hle
  · cases h

/-- C1 amended: on every tick the code dispatches *every* per-model group of
non-expired pending requests, regardless of group size, age or drain state:
the expired set is exactly the requests older than `max_wait_ms`, every
non-expired pending request is dispatched in some group, every dispatched
request is a non-expired pending request, and the pending buffer is left
empty. -/
theorem tick_dispatches_all_nonexpired (now max_wait_ms : Nat)
    (pending : List BatchRequest) :
    (process_batches now max_wait_ms pending).1 =
      pending.filter (requestExpired now max_wait_ms) ∧
    (∀ r ∈ pending, requestExpired now max_wait_ms r = false →
      ∃ g ∈ (process_batches now max_wait_ms pending).2.1, r ∈ g.2) ∧
    (∀ g ∈ (process_batches now max_wait_ms pending).2.1, ∀ r ∈ g.2,
      r ∈ pending ∧ requestExpired now max_wait_ms r = false) ∧
    (process_batches now max_wait_ms pending).2.2 = [] := by
  refine ⟨rfl, ?_, ?_, rfl⟩
  · intro r hr hexp
    rw [process_batches_eq]
    refine ⟨(r.model_id, (pending.filter
      (fun x => !requestExpired now max_wait_ms x)).filter
        (·.model_id == r.model_id)), ?_, ?_⟩
    · apply List.mem_map.mpr
      refine ⟨r.model_id, ?_, rfl⟩
      apply List.mem_dedup.mpr
      exact List.mem_map.mpr ⟨r, List.mem_filter.mpr ⟨hr, by simp [hexp]⟩, rfl⟩
    · exact List.mem_filter.mpr ⟨List.mem_filter.mpr ⟨hr, by simp [hexp]⟩, by simp⟩
  · intro g hg r hrg
    rw [process_batches_eq] at hg
    rcases List.mem_map.mp hg with ⟨k, hk, hgk⟩
    rw [← hgk] at hrg
    have h1 := List.mem_filter.mp hrg
    have h2 := List.mem_filter.mp h1.1
    refine ⟨h2.1, ?_⟩
    have := h2.2
    simpa using this

/-- Witness for the amended C1 at a concrete fresh request: it is dispatched
on the very tick it is pending. -/
theorem tick_dispatches_all_nonexpired_witness :
    ∃ g ∈ (process_batches 0 50 [sampleTextRequest]).2.1,
      sampleTextRequest ∈ g.2 :=
  (tick_dispatches_all_nonexpired 0 50 [sampleTextRequest]).2.1 sampleTextRequest
    (List.mem_singleton.mpr rfl) rfl

/-- C6 counterexample: a request of age 100 ms against `max_wait_ms = 50`
expires, but its waiter receives `Internal("Request expired")` — error code
`INTERNAL_ERROR`, HTTP 500 — not an error of the Batch kind surfacing
as 503. -/
theorem expired_error_kind_refuted :
    (process_batches 100 50 [sampleTextRequest]).1 = [sampleTextRequest] ∧
    expired_outcomes (process_batches 100 50 [sampleTextRequest]).1 =
      [(sampleTextRequest.request_id,
        .error (UniModelError.internal "Request expired"))] ∧
    ¬ ((UniModelError.internal "Request expired").error_code = "BATCH_ERROR" ∧
       (UniModelError.internal "Request expired").status_code = 503) := by
  refine ⟨rfl, rfl, ?_⟩
  rintro ⟨hc, -⟩
  exact absurd hc (by decide)

/-- C6 amended: a pending request expires when its age *strictly* exceeds
`max_wait_ms`; the dispatcher then sends its waiter the per-request error
`Internal("Request expired")` (kind `Internal`, code `INTERNAL_ERROR`),
which surfaces with HTTP status 500. -/
theorem expired_request_internal_error (now max_wait_ms : Nat)
    (pending : List BatchRequest) (r : BatchRequest) (hr : r ∈ pending)
    (hage : max_wait_ms < now - r.submitted_at) :
    (r.request_id, .error (UniModelError.internal "Request expired")) ∈
      expired_outcomes (process_batches now max_wait_ms pending).1 ∧
    (UniModelError.internal "Request expired").error_code = "INTERNAL_ERROR" ∧
    (UniModelError.internal "Request expired").status_code = 500 := by
  refine ⟨?_, rfl, rfl⟩
  rw [process_batches_eq]
  unfold expired_outcomes
  apply List.mem_map.mpr
  refine ⟨r, ?_, rfl⟩
  refine List.mem_filter.mpr ⟨hr, ?_⟩
  simp only [requestExpired, gt_iff_lt, decide_eq_true_eq]
  exact hage

/-- Witness for the amended C6 at a concrete expired request. -/
theorem expired_request_internal_error_witness :
    (sampleTextRequest.request_id,
      Except.error (UniModelError.internal "Request expired")) ∈
      expired_outcomes (process_batches 100 50 [sampleTextRequest]).1 ∧
    (UniModelError.internal "Request expired").error_code = "INTERNAL_ERROR" ∧
    (UniModelError.internal "Request expired").status_code = 500 :=
  expired_request_internal_error 100 50 [sampleTextRequest] sampleTextRequest
    (List.mem_singleton.mpr rfl) (by decide)

/-- C3: the metrics attached by `execute_batch` violate
`total_latency_ms ≥ queue_wait_ms + inference_latency_ms − ε` (ε = 1 ms
clock resolution) at the failing input of a request submitted at t = 0
whose batch executes from t = 0 to t = 50 ms: the code copies the whole
execution window into `inference_latency_ms` and measures `queue_wait_ms`
at response construction, so total = 50 while queue + inference − ε = 99. -/
theorem metrics_inequality_fails :
    (execute_batch_metrics sampleTextRequest 0 50 50 1).total_latency_ms = 50 ∧
    (execute_batch_metrics sampleTextRequest 0 50 50 1).queue_wait_ms = 50 ∧
    (execute_batch_metrics sampleTextRequest 0 50 50 1).inference_latency_ms = 50 ∧
    ¬ ((execute_batch_metrics sampleTextRequest 0 50 50 1).queue_wait_ms +
        (execute_batch_metrics sampleTextRequest 0 50 50 1).inference_latency_ms
          - 1 ≤
       (execute_batch_metrics sampleTextRequest 0 50 50 1).total_latency_ms) :=
  ⟨rfl, rfl, rfl, by decide⟩

/-- Whether a terminal event delivered to a waiter is a success. -/
def outcomeIsOk : Except UniModelError PredictionResponse → Bool
  | .ok _ => true
  | .error _ => false

/-- C4 counterexample: one pending request that expires yields exactly one
terminal event at its waiter, but the `predict` path skips
`update_model_performance` on the error path, so the ledger records 0 of
the 1 terminal events. -/
theorem ledger_terminal_count_refuted :
    (expired_outcomes (process_batches 100 50 [sampleTextRequest]).1).length
      = 1 ∧
    ledger_total_after ((expired_outcomes
      (process_batches 100 50 [sampleTextRequest]).1).map (·.2)) = 0 ∧
    ledger_total_after ((expired_outcomes
      (process_batches 100 50 [sampleTextRequest]).1).map (·.2)) ≠
      (expired_outcomes (process_batches 100 50 [sampleTextRequest]).1).length :=
  ⟨rfl, rfl, by decide⟩

/-- C4 amended: the requests recorded by the ledger through the `predict`
path are exactly the waiters that received a *successful* terminal event;
waiters that received an error (expired or failed after grouping) are not
recorded. -/
theorem ledger_counts_successes
    (outcomes : List (Except UniModelError PredictionResponse)) :
    ledger_total_after outcomes = (outcomes.filter outcomeIsOk).length := by
  have hgen : ∀ (l : List (Except UniModelError PredictionResponse)) (a : Nat),
      l.foldl (fun acc outcome => acc + predict_ledger_delta outcome) a =
        a + (l.filter outcomeIsOk).length := by
    intro l
    induction l with
    | nil => intro a; simp
    | cons x xs ih =>
      intro a
      rcases x with e | resp
      · simpa [predict_ledger_delta, outcomeIsOk] using ih a
      · rw [List.foldl_cons]
        have h1 : predict_ledger_delta (Except.ok resp) = 1 := rfl
        rw [h1, ih (a + 1)]
        have h2 : ((Except.ok resp :: xs).filter outcomeIsOk).length =
            (xs.filter outcomeIsOk).length + 1 := by
          simp [List.filter_cons, outcomeIsOk]
        rw [h2]
        omega
  exact (hgen outcomes 0).trans (by simp)

/-- Inserting a fresh key appends. -/
lemma insertModel_fresh (models : List (ModelId × Model)) (id : ModelId)
    (m : Model) (hid : id ∉ modelKeys models) :
    insertModel models id m = models ++ [(id, m)] := by
  unfold insertModel
  rw [if_neg]
  intro hc
  rcases List.any_eq_true.mp hc with ⟨p, hp, hb⟩
  exact hid (List.mem_map.mpr ⟨p, hp, beq_iff_eq.mp hb⟩)

/-- `register_model` on a full registry fails and leaves it unchanged. -/
lemma register_model_full (max_models : Nat) (models : List (ModelId × Model))
    (now : Nat) (id : ModelId) (name : String) (model_type : ModelType)
    (config : ModelConfig) (h : max_models ≤ models.length) :
    register_model max_models models now id name model_type config =
      (.error (UniModelError.model "Maximum number of models reached"), models) := by
  unfold register_model
  rw [if_pos h]

/-- `register_model` below capacity succeeds and inserts the model marked
`Loading`. -/
lemma register_model_ok (max_models : Nat) (models : List (ModelId × Model))
    (now : Nat) (id : ModelId) (name : String) (model_type : ModelType)
    (config : ModelConfig) (h : models.length < max_models) :
    register_model max_models models now id name model_type config =
      (.ok id, insertModel models id
        ((Model.new now id name model_type config).update_status now .Loading)) := by
  unfold register_model
  rw [if_neg (by omega)]

/-- The arguments of one `register_model` call (the `now` timestamp and the
fresh UUID are explicit). -/
structure RegInput where
  now : Nat
  id : ModelId
  name : String
  model_type : ModelType
  config : ModelConfig

/-- A sequence of `register_model` calls against one registry. -/
def register_sequence (max_models : Nat) (models : List (ModelId × Model)) :
    List RegInput → List (Except UniModelError ModelId) × List (ModelId × Model)
  | [] => ([], models)
  | x :: xs =>
    let step := register_model max_models models x.now x.id x.name
      x.model_type x.config
    let rest := register_sequence max_models step.2 xs
    (step.1 :: rest.1, rest.2)

/-- Position-wise outcome of a sequence of registrations with fresh,
pairwise-distinct ids: the `i`-th call succeeds exactly while the registry
has not yet reached capacity. -/
lemma register_sequence_get (max_models : Nat) :
    ∀ (inputs : List RegInput) (models : List (ModelId × Model)),
      (∀ x ∈ inputs, x.id ∉ modelKeys models) →
      (inputs.map (·.id)).Nodup →
      ∀ i x, inputs[i]? = some x →
        (register_sequence max_models models inputs).1[i]? =
          some (if models.length + i < max_models then .ok x.id
            else .error (UniModelError.model "Maximum number of models reached")) := by
  intro inputs
  induction inputs with
  | nil =>
    intro models _ _ i x hx
    simp at hx
  | cons y ys ih =>
    intro models hfresh hnodup i x hx
    rw [List.map_cons, List.nodup_cons] at hnodup
    by_cases hcap : models.length < max_models
    · rw [register_sequence, register_model_ok max_models models y.now y.id
        y.name y.model_type y.config hcap]
      rcases i with _ | i
      · rw [List.getElem?_cons_zero] at hx
        injection hx with hx
        subst hx
        simp [hcap]
      · rw [List.getElem?_cons_succ] at hx
        have hkeys : modelKeys (insertModel models y.id
            ((Model.new y.now y.id y.name y.model_type y.config).update_status
              y.now .Loading)) = modelKeys models ++ [y.id] := by
          rw [insertModel_fresh _ _ _ (hfresh y (List.mem_cons_self ..))]
          simp [modelKeys]
        have hfresh' : ∀ z ∈ ys, z.id ∉ modelKeys (insertModel models y.id
            ((Model.new y.now y.id y.name y.model_type y.config).update_status
              y.now .Loading)) := by
          intro z hz
          rw [hkeys]
          intro hc
          rcases List.mem_append.mp hc with hc | hc
          · exact hfresh z (List.mem_cons_of_mem _ hz) hc
          · rw [List.mem_singleton] at hc
            exact hnodup.1 (List.mem_map.mpr ⟨z, hz, hc⟩)
        have hlen : (insertModel models y.id
            ((Model.new y.now y.id y.name y.model_type y.config).update_status
              y.now .Loading)).length = models.length + 1 := by
          rw [insertModel_fresh _ _ _ (hfresh y (List.mem_cons_self ..))]
          simp
        have := ih _ hfresh' hnodup.2 i x hx
        rw [List.getElem?_cons_succ]
        rw [hlen] at this
        rw [this]
        have harith : models.length + 1 + i = models.length + (i + 1) := by omega
        rw [harith]
    · rw [register_sequence, register_model_full max_models models y.now y.id
        y.name y.model_type y.config (by omega)]
      rcases i with _ | i
      · rw [List.getElem?_cons_zero] at hx
        injection hx with hx
        subst hx
        simp [hcap]
      · rw [List.getElem?_cons_succ] at hx
        have hfresh' : ∀ z ∈ ys, z.id ∉ modelKeys models := fun z hz =>
          hfresh z (List.mem_cons_of_mem _ hz)
        have := ih models hfresh' hnodup.2 i x hx
        rw [List.getElem?_cons_succ, this, if_neg (by omega), if_neg (by omega)]

/-- C5: registering `n > max_models` models with fresh distinct ids on a
fresh registry yields successes at exactly the first `max_models` positions
and the capacity-exceeded `Model`-kind error at every later position; any
failed registration leaves the registry exactly as it was. -/
theorem register_capacity_boundary (max_models : Nat) (inputs : List RegInput)
    (hnodup : (inputs.map (·.id)).Nodup)
    (hn : max_models < inputs.length) :
    (∀ i x, inputs[i]? = some x →
      (register_sequence max_models [] inputs).1[i]? =
        some (if i < max_models then .ok x.id
          else .error (UniModelError.model "Maximum number of models reached"))) ∧
    (∀ (models : List (ModelId × Model)) (now : Nat) (id : ModelId)
        (name : String) (model_type : ModelType) (config : ModelConfig),
      max_models ≤ models.length →
      register_model max_models models now id name model_type config =
        (.error (UniModelError.model "Maximum number of models reached"),
          models)) := by
  constructor
  · intro i x hx
    have := register_sequence_get max_models inputs []
      (by intro z hz; simp [modelKeys]) hnodup i x hx
    simpa using this
  · intro models now id name model_type config hfull
    exact register_model_full max_models models now id name model_type config hfull

/-- A concrete model configuration for instantiating registry theorems. -/
def sampleConfig : ModelConfig :=
  { model_path := "/models/a"
    config_path := none
    tokenizer_path := none
    backend := "echo"
    device :=
      { device_type := .CPU
        device_ids := [0]
        memory_limit_mb := none
        mixed_precision := false }
    optimization :=
      { kv_cache := false
        quantization := none
        graph_optimization := false
        inference_parallelism := 1
        memory_optimization := .None }
    batch_config := BatchConfig.default
    custom_params := [] }

/-- Witness for C5: capacity 1, two registrations — the first succeeds, the
second fails with the capacity error. -/
theorem register_capacity_boundary_witness :
    (register_sequence 1 []
      [⟨0, "a", "model-a", .LLM, sampleConfig⟩,
       ⟨1, "b", "model-b", .LLM, sampleConfig⟩]).1[0]? =
        some (.ok "a") ∧
    (register_sequence 1 []
      [⟨0, "a", "model-a", .LLM, sampleConfig⟩,
       ⟨1, "b", "model-b", .LLM, sampleConfig⟩]).1[1]? =
        some (.error (UniModelError.model "Maximum number of models reached")) := by
  have h := register_capacity_boundary 1
    [⟨0, "a", "model-a", .LLM, sampleConfig⟩,
     ⟨1, "b", "model-b", .LLM, sampleConfig⟩]
    (by simp) (by simp)
  constructor
  · simpa using h.1 0 ⟨0, "a", "model-a", .LLM, sampleConfig⟩ rfl
  · simpa using h.1 1 ⟨1, "b", "model-b", .LLM, sampleConfig⟩ rfl

/-! ### Field computations of the model mutators -/

/-- `update_status` never touches the instance handle. -/
lemma update_status_instance_handle (m : Model) (now : Nat) (st : ModelStatus) :
    (m.update_status now st).instance_handle = m.instance_handle := by
  cases st <;> rfl

/-- `update_status` sets exactly the requested status. -/
lemma update_status_status (m : Model) (now : Nat) (st : ModelStatus) :
    (m.update_status now st).info.status = st := by
  cases st <;> rfl

/-- `update_status` never touches the performance counters. -/
lemma update_status_stats (m : Model) (now : Nat) (st : ModelStatus) :
    (m.update_status now st).info.performance_stats =
      m.info.performance_stats := by
  cases st <;> rfl

/-- Fields of a freshly registered model marked `Loading`. -/
lemma new_loading_fields (now : Nat) (id : ModelId) (name : String)
    (model_type : ModelType) (config : ModelConfig) :
    ((Model.new now id name model_type config).update_status now
        .Loading).instance_handle = none ∧
    ((Model.new now id name model_type config).update_status now
        .Loading).info.status = .Loading ∧
    ((Model.new now id name model_type config).update_status now
        .Loading).info.performance_stats.total_requests = 0 ∧
    ((Model.new now id name model_type config).update_status now
        .Loading).info.performance_stats.successful_requests = 0 ∧
    ((Model.new now id name model_type config).update_status now
        .Loading).info.performance_stats.failed_requests = 0 :=
  ⟨rfl, rfl, rfl, rfl, rfl⟩

/-- Fields after the load-success mutation. -/
lemma apply_load_success_fields (now : Nat) (inst : ModelInstance) (m : Model) :
    (apply_load_success now inst m).instance_handle = some inst ∧
    (apply_load_success now inst m).info.status = .Ready ∧
    (apply_load_success now inst m).info.performance_stats =
      m.info.performance_stats :=
  ⟨rfl, rfl, rfl⟩

/-- Fields after the load-failure mutation. -/
lemma apply_load_failure_fields (now : Nat) (emsg : String) (m : Model) :
    (apply_load_failure now emsg m).instance_handle = m.instance_handle ∧
    (apply_load_failure now emsg m).info.status = .Error emsg ∧
    (apply_load_failure now emsg m).info.performance_stats =
      m.info.performance_stats :=
  ⟨rfl, rfl, rfl⟩

/-- `touch` only changes `last_accessed`. -/
lemma touch_fields (m : Model) (now : Nat) :
    (m.touch now).info = m.info ∧ (m.touch now).instance_handle =
      m.instance_handle :=
  ⟨rfl, rfl⟩

/-- `update_performance_stats` preserves status and handle. -/
lemma update_performance_stats_preserves (m : Model) (now latency_ms : Nat)
    (success : Bool) :
    (m.update_performance_stats now latency_ms success).info.status =
      m.info.status ∧
    (m.update_performance_stats now latency_ms success).instance_handle =
      m.instance_handle :=
  ⟨rfl, rfl⟩

/-- Counter deltas of one `update_performance_stats` call. -/
lemma update_performance_stats_counters (m : Model) (now latency_ms : Nat)
    (success : Bool) :
    (m.update_performance_stats now latency_ms
        success).info.performance_stats.total_requests =
      m.info.performance_stats.total_requests + 1 ∧
    (m.update_performance_stats now latency_ms
        success).info.performance_stats.successful_requests +
      (m.update_performance_stats now latency_ms
        success).info.performance_stats.failed_requests =
      m.info.performance_stats.successful_requests +
        m.info.performance_stats.failed_requests + 1 := by
  cases success
  · exact ⟨rfl, by
      show m.info.performance_stats.successful_requests +
        (m.info.performance_stats.failed_requests + 1) = _
      omega⟩
  · exact ⟨rfl, by
      show m.info.performance_stats.successful_requests + 1 +
        m.info.performance_stats.failed_requests = _
      omega⟩

/-- Case analysis of membership in a keyed update. -/
lemma mem_updateModel_cases (models : List (ModelId × Model)) (id : ModelId)
    (f : Model → Model) (p : ModelId × Model)
    (hp : p ∈ updateModel models id f) :
    (∃ m0, (id, m0) ∈ models ∧ p = (id, f m0)) ∨ (p ∈ models ∧ p.1 ≠ id) := by
  rcases List.mem_map.mp hp with ⟨q, hq, hqe⟩
  rcases q with ⟨qid, qm⟩
  by_cases hb : qid = id
  · subst hb
    rw [if_pos (by simp)] at hqe
    exact Or.inl ⟨qm, hq, hqe.symm⟩
  · rw [if_neg (by simpa using hb)] at hqe
    subst hqe
    exact Or.inr ⟨hq, hb⟩

/-! ### Registry invariants -/

/-- C8's invariant: the instance handle is populated iff the status is
`Ready` or `Running`. -/
def InstanceInvariant (models : List (ModelId × Model)) : Prop :=
  ∀ p ∈ models, p.2.instance_handle.isSome = true ↔
    (p.2.info.status = .Ready ∨ p.2.info.status = .Running)

/-- A model whose asynchronous load is still outstanding is `Loading` with
no handle. -/
def PendingInvariant (s : ManagerState) : Prop :=
  ∀ id ∈ s.pendingLoads, ∀ m : Model, (id, m) ∈ s.models →
    m.info.status = .Loading ∧ m.instance_handle = none

/-- C10's invariant: the request counters add up. -/
def StatsInvariant (models : List (ModelId × Model)) : Prop :=
  ∀ p ∈ models, p.2.info.performance_stats.total_requests =
    p.2.info.performance_stats.successful_requests +
      p.2.info.performance_stats.failed_requests

/-- The conjunction maintained by every `ModelManager` operation. -/
def ManagerInvariant (s : ManagerState) : Prop :=
  InstanceInvariant s.models ∧ PendingInvariant s ∧ s.pendingLoads.Nodup ∧
    StatsInvariant s.models

/-- Every `ModelManager` operation preserves the registry invariants. -/
lemma manager_step_preserves {s s' : ManagerState} (h : ManagerStep s s')
    (hinv : ManagerInvariant s) : ManagerInvariant s' := by
  obtain ⟨hinst, hpend, hnd, hstats⟩ := hinv
  cases h with
  | register now id name model_type config hfresh hpendf hcap =>
    have hreg : (register_model s.max_models s.models now id name model_type
        config).2 = s.models ++
          [(id, (Model.new now id name model_type config).update_status now
            .Loading)] := by
      rw [register_model_ok _ _ _ _ _ _ _ hcap, insertModel_fresh _ _ _ hfresh]
    obtain ⟨hmi, hms, hmt, hmsu, hmf⟩ :=
      new_loading_fields now id name model_type config
    refine ⟨?_, ?_, ?_, ?_⟩
    · show InstanceInvariant ((register_model s.max_models s.models now id name
        model_type config).2)
      rw [hreg]
      intro p hp
      rcases List.mem_append.mp hp with hp | hp
      · exact hinst p hp
      · rw [List.mem_singleton] at hp
        subst hp
        rw [hmi, hms]
        simp
    · intro id' hid' m hm
      have hid'' : id' ∈ id :: s.pendingLoads := hid'
      have hm' : (id', m) ∈ s.models ++
          [(id, (Model.new now id name model_type config).update_status now
            .Loading)] := by
        rw [← hreg]; exact hm
      rcases List.mem_cons.mp hid'' with hid0 | hid0
      · subst hid0
        rcases List.mem_append.mp hm' with hmm | hmm
        · exact absurd (List.mem_map.mpr ⟨(id', m), hmm, rfl⟩) hfresh
        · rw [List.mem_singleton] at hmm
          injection hmm with h1 h2
          rw [h2]
          exact ⟨hms, hmi⟩
      · rcases List.mem_append.mp hm' with hmm | hmm
        · exact hpend id' hid0 m hmm
        · rw [List.mem_singleton] at hmm
          injection hmm with h1 h2
          exact absurd (h1 ▸ hid0) hpendf
    · exact List.nodup_cons.mpr ⟨hpendf, hnd⟩
    · show StatsInvariant ((register_model s.max_models s.models now id name
        model_type config).2)
      rw [hreg]
      intro p hp
      rcases List.mem_append.mp hp with hp | hp
      · exact hstats p hp
      · rw [List.mem_singleton] at hp
        subst hp
        rw [hmt, hmsu, hmf]
  | loadSuccess now id inst hpd =>
    refine ⟨?_, ?_, List.Nodup.erase _ hnd, ?_⟩
    · intro p hp
      rcases mem_updateModel_cases s.models id (apply_load_success now inst) p
        hp with ⟨m0, hm0, hpe⟩ | ⟨hpm, -⟩
      · subst hpe
        rw [(apply_load_success_fields now inst m0).1,
          (apply_load_success_fields now inst m0).2.1]
        simp
      · exact hinst p hpm
    · intro id' hid' m hm
      have hid'' := (List.Nodup.mem_erase_iff hnd).mp hid'
      rcases mem_updateModel_cases s.models id (apply_load_success now inst)
        (id', m) hm with ⟨m0, hm0, hpe⟩ | ⟨hpm, -⟩
      · injection hpe with h1 h2
        exact absurd h1 hid''.1
      · exact hpend id' hid''.2 m hpm
    · intro p hp
      rcases mem_updateModel_cases s.models id (apply_load_success now inst) p
        hp with ⟨m0, hm0, hpe⟩ | ⟨hpm, -⟩
      · subst hpe
        show (apply_load_success now inst m0).info.performance_stats.total_requests = _
        rw [(apply_load_success_fields now inst m0).2.2]
        exact hstats (id, m0) hm0
      · exact hstats p hpm
  | loadFail now id emsg hpd =>
    refine ⟨?_, ?_, List.Nodup.erase _ hnd, ?_⟩
    · intro p hp
      rcases mem_updateModel_cases s.models id (apply_load_failure now emsg) p
        hp with ⟨m0, hm0, hpe⟩ | ⟨hpm, -⟩
      · subst hpe
        obtain ⟨hst0, hin0⟩ := hpend id hpd m0 hm0
        rw [(apply_load_failure_fields now emsg m0).1,
          (apply_load_failure_fields now emsg m0).2.1, hin0]
        simp
      · exact hinst p hpm
    · intro id' hid' m hm
      have hid'' := (List.Nodup.mem_erase_iff hnd).mp hid'
      rcases mem_updateModel_cases s.models id (apply_load_failure now emsg)
        (id', m) hm with ⟨m0, hm0, hpe⟩ | ⟨hpm, -⟩
      · injection hpe with h1 h2
        exact absurd h1 hid''.1
      · exact hpend id' hid''.2 m hpm
    · intro p hp
      rcases mem_updateModel_cases s.models id (apply_load_failure now emsg) p
        hp with ⟨m0, hm0, hpe⟩ | ⟨hpm, -⟩
      · subst hpe
        show (apply_load_failure now emsg
          m0).info.performance_stats.total_requests = _
        rw [(apply_load_failure_fields now emsg m0).2.2]
        exact hstats (id, m0) hm0
      · exact hstats p hpm
  | unregister id =>
    have hsub : ∀ p ∈ (unregister_model s.models id).2, p ∈ s.models := by
      intro p hp
      unfold unregister_model at hp
      by_cases hc : s.models.any (·.1 == id) = true
      · rw [if_pos hc] at hp
        exact (List.mem_filter.mp hp).1
      · rw [if_neg hc] at hp
        exact hp
    exact ⟨fun p hp => hinst p (hsub p hp),
      fun id' hid' m hm => hpend id' hid' m (hsub (id', m) hm),
      hnd,
      fun p hp => hstats p (hsub p hp)⟩
  | updatePerf now id latency_ms success =>
    by_cases hc : s.models.any (·.1 == id) = true
    · have heq : (update_model_performance s.models now id latency_ms
          success).2 = updateModel s.models id
            (fun m => m.update_performance_stats now latency_ms success) := by
        unfold update_model_performance
        rw [if_pos hc]
      refine ⟨?_, ?_, hnd, ?_⟩
      · intro p hp
        rw [show ({ s with models := (update_model_performance s.models now id
            latency_ms success).2 } : ManagerState).models = _ from heq] at hp
        rcases mem_updateModel_cases s.models id
          (fun m => m.update_performance_stats now latency_ms success) p hp
          with ⟨m0, hm0, hpe⟩ | ⟨hpm, -⟩
        · subst hpe
          rw [(update_performance_stats_preserves m0 now latency_ms success).1,
            (update_performance_stats_preserves m0 now latency_ms success).2]
          exact hinst (id, m0) hm0
        · exact hinst p hpm
      · intro id' hid' m hm
        rw [show ({ s with models := (update_model_performance s.models now id
            latency_ms success).2 } : ManagerState).models = _ from heq] at hm
        rcases mem_updateModel_cases s.models id
          (fun m => m.update_performance_stats now latency_ms success)
          (id', m) hm with ⟨m0, hm0, hpe⟩ | ⟨hpm, -⟩
        · injection hpe with h1 h2
          subst h1
          obtain ⟨hst0, hin0⟩ := hpend id' hid' m0 hm0
          rw [h2]
          exact ⟨(update_performance_stats_preserves m0 now latency_ms
              success).1.trans hst0,
            (update_performance_stats_preserves m0 now latency_ms
              success).2.trans hin0⟩
        · exact hpend id' hid' m hpm
      · intro p hp
        rw [show ({ s with models := (update_model_performance s.models now id
            latency_ms success).2 } : ManagerState).models = _ from heq] at hp
        rcases mem_updateModel_cases s.models id
          (fun m => m.update_performance_stats now latency_ms success) p hp
          with ⟨m0, hm0, hpe⟩ | ⟨hpm, -⟩
        · subst hpe
          obtain ⟨ht, hsf⟩ :=
            update_performance_stats_counters m0 now latency_ms success
          have h0 : m0.info.performance_stats.total_requests =
              m0.info.performance_stats.successful_requests +
                m0.info.performance_stats.failed_requests :=
            hstats (id, m0) hm0
          show (m0.update_performance_stats now latency_ms
              success).info.performance_stats.total_requests =
            (m0.update_performance_stats now latency_ms
              success).info.performance_stats.successful_requests +
              (m0.update_performance_stats now latency_ms
                success).info.performance_stats.failed_requests
          omega
        · exact hstats p hpm
    · have heq : (update_model_performance s.models now id latency_ms
          success).2 = s.models := by
        unfold update_model_performance
        rw [if_neg hc]
      refine ⟨?_, ?_, hnd, ?_⟩
      · intro p hp
        rw [show ({ s with models := (update_model_performance s.models now id
            latency_ms success).2 } : ManagerState).models = _ from heq] at hp
        exact hinst p hp
      · intro id' hid' m hm
        rw [show ({ s with models := (update_model_performance s.models now id
            latency_ms success).2 } : ManagerState).models = _ from heq] at hm
        exact hpend id' hid' m hm
      · intro p hp
        rw [show ({ s with models := (update_model_performance s.models now id
            latency_ms success).2 } : ManagerState).models = _ from heq] at hp
        exact hstats p hp
  | touchForInference now id =>
    have hcases : (get_model_for_inference s.models now id).2 = s.models ∨
        (get_model_for_inference s.models now id).2 =
          updateModel s.models id (fun m => m.touch now) := by
      unfold get_model_for_inference
      cases s.models.find? (·.1 == id) with
      | none => exact Or.inl rfl
      | some p =>
        cases hb : p.2.is_loaded
        · simp [hb]
        · cases hh : p.2.is_healthy
          · simp [hb, hh]
          · simp [hb, hh]
    rcases hcases with heq | heq
    · refine ⟨?_, ?_, hnd, ?_⟩
      · intro p hp
        rw [show ({ s with models := (get_model_for_inference s.models now
            id).2 } : ManagerState).models = _ from heq] at hp
        exact hinst p hp
      · intro id' hid' m hm
        rw [show ({ s with models := (get_model_for_inference s.models now
            id).2 } : ManagerState).models = _ from heq] at hm
        exact hpend id' hid' m hm
      · intro p hp
        rw [show ({ s with models := (get_model_for_inference s.models now
            id).2 } : ManagerState).models = _ from heq] at hp
        exact hstats p hp
    · refine ⟨?_, ?_, hnd, ?_⟩
      · intro p hp
        rw [show ({ s with models := (get_model_for_inference s.models now
            id).2 } : ManagerState).models = _ from heq] at hp
        rcases mem_updateModel_cases s.models id (fun m => m.touch now) p hp
          with ⟨m0, hm0, hpe⟩ | ⟨hpm, -⟩
        · subst hpe
          rw [show (m0.touch now).instance_handle = m0.instance_handle from rfl,
            show (m0.touch now).info = m0.info from rfl]
          exact hinst (id, m0) hm0
        · exact hinst p hpm
      · intro id' hid' m hm
        rw [show ({ s with models := (get_model_for_inference s.models now
            id).2 } : ManagerState).models = _ from heq] at hm
        rcases mem_updateModel_cases s.models id (fun m => m.touch now)
          (id', m) hm with ⟨m0, hm0, hpe⟩ | ⟨hpm, -⟩
        · injection hpe with h1 h2
          subst h1
          obtain ⟨hst0, hin0⟩ := hpend id' hid' m0 hm0
          rw [h2]
          exact ⟨hst0, hin0⟩
        · exact hpend id' hid' m hpm
      · intro p hp
        rw [show ({ s with models := (get_model_for_inference s.models now
            id).2 } : ManagerState).models = _ from heq] at hp
        rcases mem_updateModel_cases s.models id (fun m => m.touch now) p hp
          with ⟨m0, hm0, hpe⟩ | ⟨hpm, -⟩
        · subst hpe
          show (m0.touch now).info.performance_stats.total_requests = _
          exact hstats (id, m0) hm0
        · exact hstats p hpm

/-- The registry invariants hold in every reachable state. -/
lemma reachable_invariant (max_models : Nat) (s : ManagerState)
    (hs : ReachableState max_models s) : ManagerInvariant s := by
  induction hs with
  | refl =>
    refine ⟨fun p hp => ?_, fun id hid => ?_, ?_, fun p hp => ?_⟩
    · exact absurd hp (by simp [initState])
    · exact absurd hid (by simp [initState])
    · simp [initState]
    · exact absurd hp (by simp [initState])
  | tail _ hbc ih => exact manager_step_preserves hbc ih

/-- C8: in every registry state reachable by `ModelManager` operations
(registration, load completion, unregistration, performance updates,
inference touch), a present model's instance handle is populated if and
only if its status is `Ready` or `Running`. -/
theorem instance_handle_iff_ready_running (max_models : Nat)
    (s : ManagerState) (hs : ReachableState max_models s) :
    ∀ p ∈ s.models, p.2.instance_handle.isSome = true ↔
      (p.2.info.status = .Ready ∨ p.2.info.status = .Running) :=
  (reachable_invariant max_models s hs).1

/-- The model inserted by registering id `"a"` at time 0. -/
def regModelLoading : Model :=
  (Model.new 0 "a" "model-a" .LLM sampleConfig).update_status 0 .Loading

/-- The manager state after one successful registration. -/
def oneRegState : ManagerState :=
  { models := [("a", regModelLoading)], pendingLoads := ["a"], max_models := 1 }

/-- The one-registration state is reachable. -/
lemma oneRegState_reachable : ReachableState 1 oneRegState :=
  Relation.ReflTransGen.single
    (ManagerStep.register (initState 1) 0 "a" "model-a" .LLM sampleConfig
      (by simp [initState, modelKeys]) (by simp [initState])
      (by simp [initState]))

/-- Witness for C8 at the concrete reachable state holding one `Loading`
model. -/
theorem instance_handle_iff_ready_running_witness :
    regModelLoading.instance_handle.isSome = true ↔
      (regModelLoading.info.status = .Ready ∨
       regModelLoading.info.status = .Running) :=
  instance_handle_iff_ready_running 1 oneRegState oneRegState_reachable
    ("a", regModelLoading) (List.mem_singleton.mpr rfl)

/-- C10: each `update_performance_stats` call increments `total_requests` by
one and exactly one of `successful_requests` / `failed_requests` according
to the success flag, and in every reachable registry state
`total_requests = successful_requests + failed_requests` holds for every
model. -/
theorem perf_counters_consistent :
    (∀ (m : Model) (now latency_ms : Nat),
      (m.update_performance_stats now latency_ms
          true).info.performance_stats.total_requests =
        m.info.performance_stats.total_requests + 1 ∧
      (m.update_performance_stats now latency_ms
          true).info.performance_stats.successful_requests =
        m.info.performance_stats.successful_requests + 1 ∧
      (m.update_performance_stats now latency_ms
          true).info.performance_stats.failed_requests =
        m.info.performance_stats.failed_requests ∧
      (m.update_performance_stats now latency_ms
          false).info.performance_stats.total_requests =
        m.info.performance_stats.total_requests + 1 ∧
      (m.update_performance_stats now latency_ms
          false).info.performance_stats.successful_requests =
        m.info.performance_stats.successful_requests ∧
      (m.update_performance_stats now latency_ms
          false).info.performance_stats.failed_requests =
        m.info.performance_stats.failed_requests + 1) ∧
    (∀ (max_models : Nat) (s : ManagerState), ReachableState max_models s →
      ∀ p ∈ s.models, p.2.info.performance_stats.total_requests =
        p.2.info.performance_stats.successful_requests +
          p.2.info.performance_stats.failed_requests) := by
  constructor
  · intro m now latency_ms
    exact ⟨rfl, rfl, rfl, rfl, rfl, rfl⟩
  · intro max_models s hs
    exact (reachable_invariant max_models s hs).2.2.2

/-- Witness for C10 at the concrete reachable one-model state. -/
theorem perf_counters_consistent_witness :
    regModelLoading.info.performance_stats.total_requests =
      regModelLoading.info.performance_stats.successful_requests +
        regModelLoading.info.performance_stats.failed_requests :=
  perf_counters_consistent.2 1 oneRegState oneRegState_reachable
    ("a", regModelLoading) (List.mem_singleton.mpr rfl)

/-- Witness for C7: a one-byte text is accepted. -/
theorem text_validation_boundary_witness :
    validate_input_data (.Text [104]) = .ok () :=
  (text_validation_boundary.1 [104]).mpr ⟨by simp, by simp⟩

/-- Witness for C9: the empty registry reports `Unknown`. -/
theorem health_check_trichotomy_witness :
    health_check [] = .Unknown :=
  (health_check_trichotomy []).1.mpr rfl

/-- Witness for the amended C4 at one failed terminal event. -/
theorem ledger_counts_successes_witness :
    ledger_total_after [.error (UniModelError.internal "Request expired")] =
      (([.error (UniModelError.internal "Request expired")] :
        List (Except UniModelError PredictionResponse)).filter
          outcomeIsOk).length :=
  ledger_counts_successes [.error (UniModelError.internal "Request expired")]

end Unimodel
